import Mathlib

/-
Shallow embedding of the request handler in src/web/app/api/process/route.ts
(MarinaVision Studio).  The handler is sequential glue around five library
functions that live in the repository but outside src/ (lib/prompt, lib/file,
lib/fal, lib/pollinations, lib/validator); those are modelled as oracle
parameters collected in GenEnv, each returning Except Thrown to model a
JavaScript function that may throw.  JSON.parse is a language builtin and is
likewise an oracle parameter.  Machine-level details that the route never
inspects (file bytes, UUID randomness) are abstract data.
-/

namespace MarinaVision

/-- JavaScript thrown values as seen by the catch blocks of the route:
either an Error carrying a message, or any other thrown value. -/
inductive Thrown where
  | jsError (message : String)
  | other
deriving DecidableEq

/-- Minimal JSON value universe for the result of JSON.parse in
parseJsonArray; numbers are restricted to integers, which is all the
model needs. -/
inductive Json where
  | null
  | bool (b : Bool)
  | num (n : Int)
  | str (s : String)
  | arr (xs : List Json)
  | obj (fields : List (String × Json))

mutual

/-- JavaScript String(x) conversion on the Json universe: strings pass
through, null prints null, arrays join their elements with commas with
null elements becoming empty, objects print as object tags. -/
def jsToString : Json → String
  | Json.null => "null"
  | Json.bool b => if b then "true" else "false"
  | Json.num n => toString n
  | Json.str s => s
  | Json.arr xs => String.intercalate "," (jsArrParts xs)
  | Json.obj _ => "[object Object]"

/-- Elementwise stringification used by JavaScript Array.prototype.join:
null elements become the empty string. -/
def jsArrParts : List Json → List String
  | [] => []
  | x :: rest =>
      (match x with
        | Json.null => ""
        | y => jsToString y) :: jsArrParts rest

end

/-- Uploaded File as far as the route observes it: only its name.  An
empty name is falsy in JavaScript and triggers the upload-id fallback. -/
structure FileModel where
  name : String
deriving DecidableEq

/-- FormDataEntryValue: a form entry is a string or a File. -/
inductive FormEntry where
  | str (s : String)
  | file (f : FileModel)
deriving DecidableEq

/-- JavaScript toString() on a form entry: strings pass through, a File
stringifies via Object.prototype.toString. -/
def entryToString : FormEntry → String
  | FormEntry.str s => s
  | FormEntry.file _ => "[object File]"

/-- JavaScript String.prototype.trim, a language builtin, modelled over
the character list: leading and trailing whitespace removed. -/
def jsTrim (s : String) : String :=
  String.mk (((s.data.dropWhile Char.isWhitespace).reverse.dropWhile
    Char.isWhitespace).reverse)

/-- parseJsonArray from route.ts lines 13 to 33.  The JSON.parse builtin is
the jsonParse oracle; a none result models a parse exception (the catch
branch).  The guard on raw also rejects the empty string, which is falsy. -/
def parseJsonArray (jsonParse : String → Option Json)
    (raw : Option FormEntry) : List String :=
  match raw with
  | none => []
  | some (FormEntry.file _) => []
  | some (FormEntry.str s) =>
    if s = "" then []
    else
      match jsonParse s with
      | some (Json.arr xs) =>
          (xs.map (fun e => jsTrim (jsToString e))).filter (fun t => t != "")
      | some (Json.str t) =>
          ((t.splitOn ",").map (fun e => jsTrim e)).filter (fun t => t != "")
      | some _ => []
      | none =>
          ((s.splitOn ",").map (fun e => jsTrim e)).filter (fun t => t != "")

/-- Argument record of buildPrompt in lib/prompt (route.ts lines 56 to 62). -/
structure PromptArgs where
  location : String
  mode : String
  lens : String
  cameraMood : String
  emphasis : List String
deriving DecidableEq

/-- Result of buildPrompt: a positive and a negative prompt string. -/
structure PromptPair where
  positive : String
  negative : String
deriving DecidableEq

/-- Argument record of generateWithFal (route.ts lines 71 to 77).  The
aspect field models the aspectRatio property; the strength literal 0.42 is
the rational 42/100. -/
structure FalArgs where
  baseImageBase64 : String
  prompt : String
  negativePrompt : String
  aspect : String
  strength : Rat
deriving DecidableEq

/-- Argument record of generateWithPollinations (route.ts lines 85 to 89). -/
structure PollArgs where
  prompt : String
  negativePrompt : String
  aspect : String
deriving DecidableEq

/-- Validation status returned by validateMarineScene, per the spec one of
approved, flagged, skipped. -/
inductive VStatus where
  | approved
  | flagged
  | skipped
deriving DecidableEq

/-- Result of validateMarineScene: status, issue list, reasoning text. -/
structure ValidationOutcome where
  status : VStatus
  issues : List String
  reasoning : String
deriving DecidableEq

/-- Argument record of validateMarineScene (route.ts lines 92 to 101). -/
structure ValidateArgs where
  imageUrl : String
  location : String
  expectations : List String
deriving DecidableEq

/-- Environment of one runGeneration call: the five library oracles, the
truthiness of process.env.FAL_KEY, and the UUID minted for the item.  Each
oracle may throw, modelled by Except. -/
structure GenEnv where
  uuid : String
  falKey : Bool
  buildPrompt : PromptArgs → Except Thrown PromptPair
  fileToBase64 : FileModel → Except Thrown String
  generateWithFal : FalArgs → Except Thrown String
  generateWithPollinations : PollArgs → Except Thrown String
  validateMarineScene : ValidateArgs → Except Thrown ValidationOutcome

/-- Validation block embedded in a GenerationResult. -/
structure ValidationInfo where
  status : VStatus
  issues : List String
  reasoning : String
deriving DecidableEq

/-- Metadata block of a GenerationResult (route.ts lines 116 to 123); the
aspect field models the aspectRatio property. -/
structure Metadata where
  mode : String
  lens : String
  mood : String
  engine : String
  location : String
  aspect : String
deriving DecidableEq

/-- Processing stage of an item. -/
inductive Stage where
  | completed
  | failed
deriving DecidableEq

/-- GenerationResult from lib/types as the route constructs it; optional
fields are absent in the catch branch. -/
structure GenerationResult where
  id : String
  originalName : String
  stage : Stage
  imageUrl : Option String
  validation : Option ValidationInfo
  metadata : Option Metadata
  error : Option String
deriving DecidableEq

/-- Per item argument record of runGeneration (route.ts lines 35 to 51);
the aspect field models the aspectRatio property. -/
structure RunArgs where
  file : FileModel
  location : String
  mode : String
  lens : String
  mood : String
  emphasis : List String
  aspect : String
deriving DecidableEq

/-- Strength literal 0.42 passed to generateWithFal. -/
def falStrength : Rat := 42 / 100

/-- Arguments the route passes to buildPrompt for an item. -/
def promptArgsOf (a : RunArgs) : PromptArgs :=
  { location := a.location, mode := a.mode, lens := a.lens
  , cameraMood := a.mood, emphasis := a.emphasis }

/-- Expectation strings the route passes to validateMarineScene
(route.ts lines 95 to 100). -/
def expectationsOf (a : RunArgs) (usedEngine : String) : List String :=
  [ "mode: " ++ a.mode
  , "lens profile: " ++ a.lens
  , "mood: " ++ a.mood
  , "engine: " ++ usedEngine ]

/-- originalName of an item (route.ts line 53): the file name, or an
upload-id fallback when the name is empty hence falsy. -/
def originalNameOf (env : GenEnv) (a : RunArgs) : String :=
  if a.file.name = "" then "upload-" ++ env.uuid ++ ".png" else a.file.name

/-- Message stored in the error field by the catch branch of runGeneration
(route.ts lines 131 to 134). -/
def thrownMessage : Thrown → String
  | Thrown.jsError m => m
  | Thrown.other => "Unknown generation error encountered."

/-- Body of the try block of runGeneration (route.ts lines 55 to 124).
The fal call is wrapped in its own try/catch whose failure only logs, so a
fal throw leaves imageUrl undefined and usedEngine at pollinations.  The
test on imageUrl before the fallback is JavaScript truthiness, so both an
undefined imageUrl and an empty string trigger the pollinations call. -/
def runGenerationBody (env : GenEnv) (a : RunArgs) :
    Except Thrown GenerationResult :=
  match env.buildPrompt (promptArgsOf a) with
  | Except.error t => Except.error t
  | Except.ok pp =>
    match env.fileToBase64 a.file with
    | Except.error t => Except.error t
    | Except.ok base64 =>
      let fal : Option String × String :=
        if env.falKey then
          match env.generateWithFal
              { baseImageBase64 := base64, prompt := pp.positive
              , negativePrompt := pp.negative, aspect := a.aspect
              , strength := falStrength } with
          | Except.ok u => (some u, "fal-ai/flux-pro")
          | Except.error _ => (none, "pollinations")
        else (none, "pollinations")
      let usedEngine := fal.2
      let step : Except Thrown String :=
        match fal.1 with
        | some u =>
            if u = "" then
              env.generateWithPollinations
                { prompt := pp.positive, negativePrompt := pp.negative
                , aspect := a.aspect }
            else Except.ok u
        | none =>
            env.generateWithPollinations
              { prompt := pp.positive, negativePrompt := pp.negative
              , aspect := a.aspect }
      match step with
      | Except.error t => Except.error t
      | Except.ok imageUrl =>
        match env.validateMarineScene
            { imageUrl := imageUrl, location := a.location
            , expectations := expectationsOf a usedEngine } with
        | Except.error t => Except.error t
        | Except.ok validation =>
          Except.ok
            { id := env.uuid
            , originalName := originalNameOf env a
            , stage :=
                if validation.status = VStatus.flagged then Stage.failed
                else Stage.completed
            , imageUrl := some imageUrl
            , validation := some
                { status := validation.status, issues := validation.issues
                , reasoning := validation.reasoning }
            , metadata := some
                { mode := a.mode, lens := a.lens, mood := a.mood
                , engine := usedEngine, location := a.location
                , aspect := a.aspect }
            , error := none }

/-- runGeneration (route.ts lines 35 to 137): the try body, with the catch
branch turning any thrown value into a failed result that keeps only id,
originalName and an error string. -/
def runGeneration (env : GenEnv) (a : RunArgs) : GenerationResult :=
  match runGenerationBody env a with
  | Except.ok r => r
  | Except.error t =>
      { id := env.uuid
      , originalName := originalNameOf env a
      , stage := Stage.failed
      , imageUrl := none
      , validation := none
      , metadata := none
      , error := some (thrownMessage t) }

/-- Form data of a POST request as the route reads it: the first entry of
each named field (null when absent) and all entries under images.  The
aspect field models the aspectRatio form field. -/
structure FormDataModel where
  location : Option FormEntry
  mode : Option FormEntry
  lens : Option FormEntry
  mood : Option FormEntry
  emphasis : Option FormEntry
  aspect : Option FormEntry
  images : List FormEntry
deriving DecidableEq

/-- location parsing (route.ts lines 142 to 143): optional chaining then
trim, with the or-default firing on null and on the falsy empty string. -/
def postLocation (fd : FormDataModel) : String :=
  match fd.location with
  | none => "local waterways"
  | some e =>
      if jsTrim (entryToString e) = "" then "local waterways"
      else jsTrim (entryToString e)

/-- mode parsing (route.ts line 144): the nullish default fires only when
the field is absent; any present string passes through. -/
def postMode (fd : FormDataModel) : String :=
  match fd.mode with
  | none => "running"
  | some e => entryToString e

/-- lens parsing (route.ts line 145). -/
def postLens (fd : FormDataModel) : String :=
  match fd.lens with
  | none => "wide"
  | some e => entryToString e

/-- mood parsing (route.ts line 146). -/
def postMood (fd : FormDataModel) : String :=
  match fd.mood with
  | none => "sunrise"
  | some e => entryToString e

/-- Raw aspectRatio string (route.ts line 148). -/
def aspectRaw (fd : FormDataModel) : String :=
  match fd.aspect with
  | none => "3:2"
  | some e => entryToString e

/-- Validated aspectRatio (route.ts lines 149 to 154): three values pass
through, anything else collapses to the 3:2 default. -/
def postAspect (fd : FormDataModel) : String :=
  if aspectRaw fd = "1:1" ∨ aspectRaw fd = "4:3" ∨ aspectRaw fd = "16:9" then
    aspectRaw fd
  else "3:2"

/-- File entries under images (route.ts lines 156 to 158): non File
entries are filtered out. -/
def postFiles (fd : FormDataModel) : List FileModel :=
  fd.images.filterMap (fun e =>
    match e with
    | FormEntry.file f => some f
    | FormEntry.str _ => none)

/-- Parameters shared by every item of a batch. -/
structure SharedParams where
  location : String
  mode : String
  lens : String
  mood : String
  emphasis : List String
  aspect : String
deriving DecidableEq

/-- Shared parameters the POST handler computes from the form data. -/
def sharedOf (jsonParse : String → Option Json) (fd : FormDataModel) :
    SharedParams :=
  { location := postLocation fd, mode := postMode fd, lens := postLens fd
  , mood := postMood fd, emphasis := parseJsonArray jsonParse fd.emphasis
  , aspect := postAspect fd }

/-- Sequential for-loop over the files (route.ts lines 169 to 180).  The
index threads the per item oracle environment, modelling that each await
of runGeneration observes the external services in a possibly different
state. -/
def processFiles (env : Nat → GenEnv) (p : SharedParams) :
    Nat → List FileModel → List GenerationResult
  | _, [] => []
  | i, f :: rest =>
      runGeneration (env i)
        { file := f, location := p.location, mode := p.mode, lens := p.lens
        , mood := p.mood, emphasis := p.emphasis, aspect := p.aspect } ::
      processFiles env p (i + 1) rest

/-- Response of the POST handler: either a JSON error with an HTTP status,
or the success payload echoing location, mode, lens, mood plus the result
list. -/
inductive PostResponse where
  | errorResponse (status : Nat) (error : String)
  | success (location : String) (mode : String) (lens : String)
      (mood : String) (results : List GenerationResult)
deriving DecidableEq

/-- POST handler (route.ts lines 139 to 189). -/
def POST (jsonParse : String → Option Json) (env : Nat → GenEnv)
    (fd : FormDataModel) : PostResponse :=
  let files := postFiles fd
  if files.isEmpty then PostResponse.errorResponse 400 "No images provided."
  else
    PostResponse.success (postLocation fd) (postMode fd) (postLens fd)
      (postMood fd) (processFiles env (sharedOf jsonParse fd) 0 files)

/-- Concrete uploaded file used by the concrete instances below. -/
def file0 : FileModel := { name := "boat.jpg" }

/-- Second concrete uploaded file. -/
def fileB : FileModel := { name := "dock.png" }

/-- Baseline oracle environment: FAL_KEY unset, every library call
succeeds with a fixed value. -/
def env0 : GenEnv :=
  { uuid := "id-0"
  , falKey := false
  , buildPrompt := fun _ => Except.ok { positive := "pos", negative := "neg" }
  , fileToBase64 := fun _ => Except.ok "b64"
  , generateWithFal := fun _ => Except.ok "https://fal.example/img.png"
  , generateWithPollinations := fun _ => Except.ok "https://poll.example/img.png"
  , validateMarineScene := fun _ =>
      Except.ok { status := VStatus.approved, issues := [], reasoning := "ok" } }

/-- Environment whose prompt builder throws an Error. -/
def envThrow : GenEnv :=
  { env0 with buildPrompt := fun _ => Except.error (Thrown.jsError "boom") }

/-- Environment with FAL_KEY set and a failing primary generator. -/
def envFalDown : GenEnv :=
  { env0 with
    falKey := true
    generateWithFal := fun _ => Except.error (Thrown.jsError "fal down") }

/-- Environment with FAL_KEY set and a succeeding primary generator. -/
def envFalOk : GenEnv := { env0 with falKey := true }

/-- Environment with FAL_KEY set whose primary generator resolves with
the empty string: a falsy value, so the route still runs the fallback
while usedEngine has already been set to the primary engine name. -/
def envFalEmpty : GenEnv :=
  { env0 with
    falKey := true
    generateWithFal := fun _ => Except.ok "" }

/-- Concrete per item arguments. -/
def args0 : RunArgs :=
  { file := file0, location := "Miami", mode := "running", lens := "wide"
  , mood := "sunrise", emphasis := ["wake"], aspect := "3:2" }

/-- JSON.parse oracle that always fails. -/
def jp0 : String → Option Json := fun _ => none

/-- JSON.parse oracle recognising one array literal. -/
def jp1 : String → Option Json := fun s =>
  if s = "[\" a \",\" \"]" then some (Json.arr [Json.str " a ", Json.str " "])
  else none

/-- Constant per item environment family. -/
def envC : Nat → GenEnv := fun _ => env0

/-- Environment family whose first item throws and later items succeed. -/
def envMix : Nat → GenEnv := fun n => if n = 0 then envThrow else env0

/-- Form data carrying a mode string outside the documented enumeration. -/
def fd6 : FormDataModel :=
  { location := some (FormEntry.str "Miami")
  , mode := some (FormEntry.str "warp")
  , lens := some (FormEntry.str "wide")
  , mood := some (FormEntry.str "sunrise")
  , emphasis := none
  , aspect := some (FormEntry.str "3:2")
  , images := [FormEntry.file file0] }

/-- Form data with every optional field absent and one image. -/
def fdEmpty : FormDataModel :=
  { location := none, mode := none, lens := none, mood := none
  , emphasis := none, aspect := none, images := [FormEntry.file file0] }

/-- Form data with a whitespace location and empty mode, lens, mood. -/
def fdBlank : FormDataModel :=
  { location := some (FormEntry.str "   ")
  , mode := some (FormEntry.str "")
  , lens := some (FormEntry.str "")
  , mood := some (FormEntry.str "")
  , emphasis := none, aspect := none, images := [FormEntry.file file0] }

/-- Form data whose images key holds no File entry. -/
def fdNoImages : FormDataModel :=
  { location := none, mode := none, lens := none, mood := none
  , emphasis := none, aspect := none, images := [FormEntry.str "oops"] }

/-- Form data with a batch of two images. -/
def fd3 : FormDataModel :=
  { fdEmpty with images := [FormEntry.file file0, FormEntry.file fileB] }

/-- Concrete successful result used by the witness of claim C4. -/
def resultOk0 : GenerationResult := runGeneration env0 args0

/-- Claim C1: when any step inside the try block of runGeneration throws,
the catch branch returns a result with stage failed, the error string
taken from the Error message or the fixed unknown-error text, the same id
and originalName, and none of imageUrl, validation, metadata. -/
theorem claim_C1 (env : GenEnv) (a : RunArgs) (t : Thrown)
    (h : runGenerationBody env a = Except.error t) :
    runGeneration env a =
      { id := env.uuid
      , originalName := originalNameOf env a
      , stage := Stage.failed
      , imageUrl := none
      , validation := none
      , metadata := none
      , error := some (thrownMessage t) } := by
  unfold runGeneration
  rw [h]

/-- Witness for claim C1 at a prompt builder throwing an Error. -/
theorem claim_C1_witness :
    runGeneration envThrow args0 =
      { id := "id-0", originalName := "boat.jpg", stage := Stage.failed
      , imageUrl := none, validation := none, metadata := none
      , error := some "boom" } :=
  claim_C1 envThrow args0 (Thrown.jsError "boom") rfl

/-- Claim C7: the aspect ratio used for generation is always one of the
four enumerated values; the three non default literals pass through, and
every other field value, an absent field, and a File entry collapse to
the 3:2 default. -/
theorem claim_C7 (fd : FormDataModel) :
    (postAspect fd = "1:1" ∨ postAspect fd = "4:3" ∨ postAspect fd = "3:2" ∨
      postAspect fd = "16:9") ∧
    (∀ s, fd.aspect = some (FormEntry.str s) →
      (s = "1:1" ∨ s = "4:3" ∨ s = "16:9") → postAspect fd = s) ∧
    (∀ s, fd.aspect = some (FormEntry.str s) →
      ¬(s = "1:1" ∨ s = "4:3" ∨ s = "16:9") → postAspect fd = "3:2") ∧
    (fd.aspect = none → postAspect fd = "3:2") ∧
    (∀ f, fd.aspect = some (FormEntry.file f) → postAspect fd = "3:2") := by
  refine ⟨?_, ?_, ?_, ?_, ?_⟩
  · unfold postAspect
    split
    · rename_i h
      rcases h with h | h | h
      · exact Or.inl h
      · exact Or.inr (Or.inl h)
      · exact Or.inr (Or.inr (Or.inr h))
    · exact Or.inr (Or.inr (Or.inl rfl))
  · intro s h hs
    rcases hs with h1 | h1 | h1 <;> subst h1 <;>
      simp [postAspect, aspectRaw, h, entryToString]
  · intro s h hs
    simp only [postAspect, aspectRaw, h, entryToString]
    rw [if_neg hs]
  · intro h
    simp [postAspect, aspectRaw, h]
  · intro f h
    simp [postAspect, aspectRaw, h, entryToString]

/-- Witness for claim C7: the literal 3:2 is not one of the pass-through
values and maps to the default. -/
theorem claim_C7_witness :
    fd6.aspect = some (FormEntry.str "3:2") ∧ postAspect fd6 = "3:2" :=
  ⟨rfl, (claim_C7 fd6).2.2.1 "3:2" rfl (by decide)⟩

/-- Claim C8: when the emphasis field holds a string that JSON.parse reads
as an array, the emphasis list is that array stringified elementwise,
trimmed, with empty entries dropped, in order; an absent or non string
field yields the empty list. -/
theorem claim_C8 (jsonParse : String → Option Json) :
    (∀ s xs, s ≠ "" → jsonParse s = some (Json.arr xs) →
      parseJsonArray jsonParse (some (FormEntry.str s)) =
        (xs.map (fun e => jsTrim (jsToString e))).filter (fun t => t != "")) ∧
    parseJsonArray jsonParse none = [] ∧
    (∀ f, parseJsonArray jsonParse (some (FormEntry.file f)) = []) := by
  refine ⟨?_, rfl, fun f => rfl⟩
  intro s xs hs hp
  simp [parseJsonArray, hs, hp]

/-- Witness for claim C8 on a two element array whose entries trim to one
kept string and one dropped empty string. -/
theorem claim_C8_witness :
    parseJsonArray jp1 (some (FormEntry.str "[\" a \",\" \"]")) = ["a"] := by
  have h := (claim_C8 jp1).1 "[\" a \",\" \"]" [Json.str " a ", Json.str " "]
    (by decide) rfl
  rw [h]
  simp only [List.map, jsToString]
  decide

/-- Claim C9: a POST whose form data has no File entry under images
returns HTTP 400 with the fixed error body, and the response does not
depend on the generation oracles or the JSON parse oracle, so no
generation work is performed. -/
theorem claim_C9 (jsonParse : String → Option Json) (env : Nat → GenEnv)
    (fd : FormDataModel) (h : postFiles fd = []) :
    POST jsonParse env fd =
      PostResponse.errorResponse 400 "No images provided." ∧
    ∀ (jp2 : String → Option Json) (env2 : Nat → GenEnv),
      POST jsonParse env fd = POST jp2 env2 fd := by
  have hemp : (postFiles fd).isEmpty = true := by simp [h]
  refine ⟨?_, ?_⟩
  · simp [POST, hemp]
  · intro jp2 env2
    simp [POST, hemp]

/-- Witness for claim C9 at form data whose images key holds a string. -/
theorem claim_C9_witness :
    postFiles fdNoImages = [] ∧
    POST jp0 envC fdNoImages =
      PostResponse.errorResponse 400 "No images provided." :=
  ⟨rfl, (claim_C9 jp0 envC fdNoImages rfl).1⟩

/-- Claim C10: absent fields take their defaults, a whitespace only
location is also defaulted because trim makes it falsy, while an empty
string mode, lens or mood passes through since only a null field triggers
the nullish default. -/
theorem claim_C10 (fd : FormDataModel) :
    (fd.location = none → postLocation fd = "local waterways") ∧
    (∀ s, fd.location = some (FormEntry.str s) → jsTrim s = "" →
      postLocation fd = "local waterways") ∧
    (fd.mode = none → postMode fd = "running") ∧
    (fd.lens = none → postLens fd = "wide") ∧
    (fd.mood = none → postMood fd = "sunrise") ∧
    (fd.aspect = none → postAspect fd = "3:2") ∧
    (fd.mode = some (FormEntry.str "") → postMode fd = "") ∧
    (fd.lens = some (FormEntry.str "") → postLens fd = "") ∧
    (fd.mood = some (FormEntry.str "") → postMood fd = "") := by
  refine ⟨?_, ?_, ?_, ?_, ?_, ?_, ?_, ?_, ?_⟩
  · intro h; simp [postLocation, h]
  · intro s h hs; simp [postLocation, h, entryToString, hs]
  · intro h; simp [postMode, h]
  · intro h; simp [postLens, h]
  · intro h; simp [postMood, h]
  · intro h; simp [postAspect, aspectRaw, h]
  · intro h; simp [postMode, h, entryToString]
  · intro h; simp [postLens, h, entryToString]
  · intro h; simp [postMood, h, entryToString]

/-- Witness for claim C10: defaults fire on absent fields, a whitespace
location is defaulted, an empty mode passes through. -/
theorem claim_C10_witness :
    (postMode fdEmpty = "running") ∧
    (postLocation fdBlank = "local waterways") ∧
    (postMode fdBlank = "") :=
  ⟨(claim_C10 fdEmpty).2.2.1 rfl,
   (claim_C10 fdBlank).2.1 "   " rfl (by decide),
   (claim_C10 fdBlank).2.2.2.2.2.2.1 rfl⟩

/-- Claim C2: with FAL_KEY set, a throwing primary generator does not
fail the item: the inner catch swallows the throw, the fallback generator
is called with the same positive prompt, negative prompt and aspect
ratio, and the item completes through validation with the pollinations
engine recorded. -/
theorem claim_C2 (env : GenEnv) (a : RunArgs) (pp : PromptPair)
    (b64 url : String) (ft : Thrown) (v : ValidationOutcome)
    (hkey : env.falKey = true)
    (hbp : env.buildPrompt (promptArgsOf a) = Except.ok pp)
    (hb : env.fileToBase64 a.file = Except.ok b64)
    (hfal : env.generateWithFal
      { baseImageBase64 := b64, prompt := pp.positive
      , negativePrompt := pp.negative, aspect := a.aspect
      , strength := falStrength } = Except.error ft)
    (hpoll : env.generateWithPollinations
      { prompt := pp.positive, negativePrompt := pp.negative
      , aspect := a.aspect } = Except.ok url)
    (hval : env.validateMarineScene
      { imageUrl := url, location := a.location
      , expectations := expectationsOf a "pollinations" } = Except.ok v) :
    runGeneration env a =
      { id := env.uuid
      , originalName := originalNameOf env a
      , stage :=
          if v.status = VStatus.flagged then Stage.failed else Stage.completed
      , imageUrl := some url
      , validation := some
          { status := v.status, issues := v.issues, reasoning := v.reasoning }
      , metadata := some
          { mode := a.mode, lens := a.lens, mood := a.mood
          , engine := "pollinations", location := a.location
          , aspect := a.aspect }
      , error := none } := by
  simp [runGeneration, runGenerationBody, hkey, hbp, hb, hfal, hpoll, hval]

/-- Witness for claim C2: FAL_KEY set, primary generator throwing, and
fallback plus validation succeeding complete the item. -/
theorem claim_C2_witness :
    runGeneration envFalDown args0 =
      { id := "id-0", originalName := "boat.jpg", stage := Stage.completed
      , imageUrl := some "https://poll.example/img.png"
      , validation := some
          { status := VStatus.approved, issues := [], reasoning := "ok" }
      , metadata := some
          { mode := "running", lens := "wide", mood := "sunrise"
          , engine := "pollinations", location := "Miami", aspect := "3:2" }
      , error := none } :=
  claim_C2 envFalDown args0 { positive := "pos", negative := "neg" } "b64"
    "https://poll.example/img.png" (Thrown.jsError "fal down")
    { status := VStatus.approved, issues := [], reasoning := "ok" }
    rfl rfl rfl rfl rfl rfl

/-- Helper for claim C4: once the generation step has produced a URL, the
remaining validation match yields a result whose stage mirrors the
validation status. -/
theorem c4_final (env : GenEnv) (a : RunArgs) (r : GenerationResult)
    (url eng : String)
    (h : (match env.validateMarineScene
        { imageUrl := url, location := a.location
        , expectations := expectationsOf a eng } with
      | Except.error t => Except.error t
      | Except.ok validation =>
        Except.ok
          { id := env.uuid
          , originalName := originalNameOf env a
          , stage :=
              if validation.status = VStatus.flagged then Stage.failed
              else Stage.completed
          , imageUrl := some url
          , validation := some
              { status := validation.status, issues := validation.issues
              , reasoning := validation.reasoning }
          , metadata := some
              { mode := a.mode, lens := a.lens, mood := a.mood
              , engine := eng, location := a.location, aspect := a.aspect }
          , error := none }) = Except.ok r) :
    r.imageUrl.isSome = true ∧ r.validation.isSome = true ∧
    (r.stage = Stage.failed ↔
      r.validation.map ValidationInfo.status = some VStatus.flagged) ∧
    ((r.validation.map ValidationInfo.status = some VStatus.approved ∨
      r.validation.map ValidationInfo.status = some VStatus.skipped) →
      r.stage = Stage.completed) := by
  rcases hval : env.validateMarineScene
      { imageUrl := url, location := a.location
      , expectations := expectationsOf a eng } with t | v
  · rw [hval] at h; cases h
  · rw [hval] at h
    dsimp only at h
    obtain rfl := Except.ok.inj h
    refine ⟨rfl, rfl, ?_, ?_⟩ <;>
      rcases hs : v.status with _ | _ | _ <;> simp [hs]

/-- Claim C4: whenever the try body of runGeneration completes without
throwing, the result carries an image URL and a validation block, its
stage is failed exactly when the validation status is flagged, and an
approved or skipped status yields stage completed. -/
theorem claim_C4 (env : GenEnv) (a : RunArgs) (r : GenerationResult)
    (h : runGenerationBody env a = Except.ok r) :
    r.imageUrl.isSome = true ∧ r.validation.isSome = true ∧
    (r.stage = Stage.failed ↔
      r.validation.map ValidationInfo.status = some VStatus.flagged) ∧
    ((r.validation.map ValidationInfo.status = some VStatus.approved ∨
      r.validation.map ValidationInfo.status = some VStatus.skipped) →
      r.stage = Stage.completed) := by
  unfold runGenerationBody at h
  rcases hbp : env.buildPrompt (promptArgsOf a) with t | pp
  · rw [hbp] at h; cases h
  rw [hbp] at h
  rcases hb : env.fileToBase64 a.file with t | b64
  · rw [hb] at h; cases h
  rw [hb] at h
  dsimp only at h
  by_cases hk : env.falKey = true
  · rw [if_pos hk] at h
    rcases hfal : env.generateWithFal
        { baseImageBase64 := b64, prompt := pp.positive
        , negativePrompt := pp.negative, aspect := a.aspect
        , strength := falStrength } with t | u
    all_goals rw [hfal] at h
    all_goals dsimp only at h
    · rcases hpoll : env.generateWithPollinations
          { prompt := pp.positive, negativePrompt := pp.negative
          , aspect := a.aspect } with t | url
      all_goals rw [hpoll] at h
      · cases h
      · exact c4_final env a r url "pollinations" h
    · by_cases hu : u = ""
      · rw [if_pos hu] at h
        rcases hpoll : env.generateWithPollinations
            { prompt := pp.positive, negativePrompt := pp.negative
            , aspect := a.aspect } with t | url
        all_goals rw [hpoll] at h
        · cases h
        · exact c4_final env a r url "fal-ai/flux-pro" h
      · rw [if_neg hu] at h
        exact c4_final env a r u "fal-ai/flux-pro" h
  · rw [if_neg hk] at h
    dsimp only at h
    rcases hpoll : env.generateWithPollinations
        { prompt := pp.positive, negativePrompt := pp.negative
        , aspect := a.aspect } with t | url
    all_goals rw [hpoll] at h
    · cases h
    · exact c4_final env a r url "pollinations" h

/-- Witness for claim C4 at the baseline environment. -/
theorem claim_C4_witness :
    runGenerationBody env0 args0 = Except.ok resultOk0 ∧
    (resultOk0.stage = Stage.failed ↔
      resultOk0.validation.map ValidationInfo.status = some VStatus.flagged) :=
  ⟨rfl, (claim_C4 env0 args0 resultOk0 rfl).2.2.1⟩

/-- Claim C5 is refuted by the code: when FAL_KEY is set and the primary
generator resolves with the empty string, the falsy check reruns the
fallback, so the returned URL comes from the fallback generator, yet
usedEngine was already set to fal-ai/flux-pro and is recorded in the
metadata.  The conjuncts pin down that the primary result was the empty
string, that the fallback produced the returned URL, and that this URL
is not the primary result. -/
theorem claim_C5_counterexample :
    runGeneration envFalEmpty args0 =
      { id := "id-0", originalName := "boat.jpg", stage := Stage.completed
      , imageUrl := some "https://poll.example/img.png"
      , validation := some
          { status := VStatus.approved, issues := [], reasoning := "ok" }
      , metadata := some
          { mode := "running", lens := "wide", mood := "sunrise"
          , engine := "fal-ai/flux-pro", location := "Miami"
          , aspect := "3:2" }
      , error := none } ∧
    envFalEmpty.generateWithFal
      { baseImageBase64 := "b64", prompt := "pos", negativePrompt := "neg"
      , aspect := "3:2", strength := falStrength } = Except.ok "" ∧
    envFalEmpty.generateWithPollinations
      { prompt := "pos", negativePrompt := "neg", aspect := "3:2" } =
      Except.ok "https://poll.example/img.png" ∧
    ¬("https://poll.example/img.png" = "") :=
  ⟨rfl, rfl, rfl, by decide⟩

/-- Claim C5 (amended): on a completed item, the metadata echoes mode,
lens, mood, location and aspect ratio unchanged; the engine field is
fal-ai/flux-pro exactly when FAL_KEY is set and the primary generator
returned without throwing — including the case of an empty string
result, where the returned URL nevertheless comes from the fallback —
and pollinations when FAL_KEY is unset or the primary generator threw.
The three conjuncts cover those three completion paths. -/
theorem claim_C5 (env : GenEnv) (a : RunArgs) (pp : PromptPair) (b64 : String)
    (hbp : env.buildPrompt (promptArgsOf a) = Except.ok pp)
    (hb : env.fileToBase64 a.file = Except.ok b64) :
    (∀ u v, env.falKey = true →
      env.generateWithFal
        { baseImageBase64 := b64, prompt := pp.positive
        , negativePrompt := pp.negative, aspect := a.aspect
        , strength := falStrength } = Except.ok u →
      u ≠ "" →
      env.validateMarineScene
        { imageUrl := u, location := a.location
        , expectations := expectationsOf a "fal-ai/flux-pro" } = Except.ok v →
      (runGeneration env a).imageUrl = some u ∧
      (runGeneration env a).metadata = some
        { mode := a.mode, lens := a.lens, mood := a.mood
        , engine := "fal-ai/flux-pro", location := a.location
        , aspect := a.aspect }) ∧
    (∀ url v, env.falKey = true →
      env.generateWithFal
        { baseImageBase64 := b64, prompt := pp.positive
        , negativePrompt := pp.negative, aspect := a.aspect
        , strength := falStrength } = Except.ok "" →
      env.generateWithPollinations
        { prompt := pp.positive, negativePrompt := pp.negative
        , aspect := a.aspect } = Except.ok url →
      env.validateMarineScene
        { imageUrl := url, location := a.location
        , expectations := expectationsOf a "fal-ai/flux-pro" } = Except.ok v →
      (runGeneration env a).imageUrl = some url ∧
      (runGeneration env a).metadata = some
        { mode := a.mode, lens := a.lens, mood := a.mood
        , engine := "fal-ai/flux-pro", location := a.location
        , aspect := a.aspect }) ∧
    (∀ url v,
      (env.falKey = false ∨ ∃ t, env.generateWithFal
        { baseImageBase64 := b64, prompt := pp.positive
        , negativePrompt := pp.negative, aspect := a.aspect
        , strength := falStrength } = Except.error t) →
      env.generateWithPollinations
        { prompt := pp.positive, negativePrompt := pp.negative
        , aspect := a.aspect } = Except.ok url →
      env.validateMarineScene
        { imageUrl := url, location := a.location
        , expectations := expectationsOf a "pollinations" } = Except.ok v →
      (runGeneration env a).imageUrl = some url ∧
      (runGeneration env a).metadata = some
        { mode := a.mode, lens := a.lens, mood := a.mood
        , engine := "pollinations", location := a.location
        , aspect := a.aspect }) := by
  refine ⟨?_, ?_, ?_⟩
  · intro u v hkey hfal hu hval
    simp [runGeneration, runGenerationBody, hkey, hbp, hb, hfal, hu, hval]
  · intro url v hkey hfal hpoll hval
    simp [runGeneration, runGenerationBody, hkey, hbp, hb, hfal, hpoll, hval]
  · intro url v hcase hpoll hval
    rcases hcase with hkey | ⟨t, hfal⟩
    · simp [runGeneration, runGenerationBody, hkey, hbp, hb, hpoll, hval]
    · rcases hkey : env.falKey with _ | _
      · simp [runGeneration, runGenerationBody, hkey, hbp, hb, hpoll, hval]
      · simp [runGeneration, runGenerationBody, hkey, hbp, hb, hfal, hpoll,
          hval]

/-- Witness for the amended claim C5: the primary engine is recorded when
the primary call returns a non empty URL, the primary engine is also
recorded when it returns an empty URL and the fallback supplies the
image, and the fallback engine is recorded when FAL_KEY is unset. -/
theorem claim_C5_witness :
    ((runGeneration envFalOk args0).metadata = some
      { mode := "running", lens := "wide", mood := "sunrise"
      , engine := "fal-ai/flux-pro", location := "Miami", aspect := "3:2" }) ∧
    ((runGeneration envFalEmpty args0).imageUrl =
        some "https://poll.example/img.png" ∧
      (runGeneration envFalEmpty args0).metadata = some
      { mode := "running", lens := "wide", mood := "sunrise"
      , engine := "fal-ai/flux-pro", location := "Miami", aspect := "3:2" }) ∧
    ((runGeneration env0 args0).metadata = some
      { mode := "running", lens := "wide", mood := "sunrise"
      , engine := "pollinations", location := "Miami", aspect := "3:2" }) :=
  ⟨((claim_C5 envFalOk args0 { positive := "pos", negative := "neg" } "b64"
      rfl rfl).1 "https://fal.example/img.png"
      { status := VStatus.approved, issues := [], reasoning := "ok" }
      rfl rfl (by decide) rfl).2,
   (claim_C5 envFalEmpty args0 { positive := "pos", negative := "neg" } "b64"
      rfl rfl).2.1 "https://poll.example/img.png"
      { status := VStatus.approved, issues := [], reasoning := "ok" }
      rfl rfl rfl rfl,
   ((claim_C5 env0 args0 { positive := "pos", negative := "neg" } "b64"
      rfl rfl).2.2 "https://poll.example/img.png"
      { status := VStatus.approved, issues := [], reasoning := "ok" }
      (Or.inl rfl) rfl rfl).2⟩

/-- Helper: the loop over the batch yields one result per file. -/
theorem processFiles_length (env : Nat → GenEnv) (p : SharedParams) :
    ∀ (k : Nat) (files : List FileModel),
      (processFiles env p k files).length = files.length := by
  intro k files
  induction files generalizing k with
  | nil => simp [processFiles]
  | cons f rest ih => simp [processFiles, ih]

/-- Helper: the i-th result of the loop is runGeneration applied to the
i-th file with the i-th oracle environment, independent of the other
items. -/
theorem processFiles_getElem (env : Nat → GenEnv) (p : SharedParams) :
    ∀ (files : List FileModel) (k i : Nat),
      (processFiles env p k files)[i]? =
        (files[i]?).map (fun f =>
          runGeneration (env (k + i))
            { file := f, location := p.location, mode := p.mode
            , lens := p.lens, mood := p.mood, emphasis := p.emphasis
            , aspect := p.aspect }) := by
  intro files
  induction files with
  | nil => intro k i; simp [processFiles]
  | cons f rest ih =>
    intro k i
    cases i with
    | zero => simp [processFiles]
    | succ j =>
      simp only [processFiles, List.getElem?_cons_succ]
      rw [ih (k + 1) j]
      have hkj : k + 1 + j = k + (j + 1) := by omega
      rw [hkj]

/-- Claim C3: a POST with a non empty file list answers with the success
payload holding exactly one result per file; the results are in file
order, and the i-th result is a function of the i-th file and the i-th
oracle environment alone, so one item failing cannot drop or change the
results of later items. -/
theorem claim_C3 (jsonParse : String → Option Json) (env : Nat → GenEnv)
    (fd : FormDataModel) (h : postFiles fd ≠ []) :
    POST jsonParse env fd =
      PostResponse.success (postLocation fd) (postMode fd) (postLens fd)
        (postMood fd)
        (processFiles env (sharedOf jsonParse fd) 0 (postFiles fd)) ∧
    (processFiles env (sharedOf jsonParse fd) 0 (postFiles fd)).length =
      (postFiles fd).length ∧
    ∀ i : Nat,
      (processFiles env (sharedOf jsonParse fd) 0 (postFiles fd))[i]? =
        ((postFiles fd)[i]?).map (fun f =>
          runGeneration (env i)
            { file := f, location := postLocation fd, mode := postMode fd
            , lens := postLens fd, mood := postMood fd
            , emphasis := parseJsonArray jsonParse fd.emphasis
            , aspect := postAspect fd }) := by
  refine ⟨?_,
    processFiles_length env (sharedOf jsonParse fd) 0 (postFiles fd), ?_⟩
  · have hne : (postFiles fd).isEmpty = false := by
      cases hf : postFiles fd with
      | nil => exact absurd hf h
      | cons x l => simp
    simp [POST, hne]
  · intro i
    have hg := processFiles_getElem env (sharedOf jsonParse fd)
      (postFiles fd) 0 i
    simpa [sharedOf] using hg

/-- Witness for claim C3: a two file batch whose first item environment
throws still yields a second result computed from the second file. -/
theorem claim_C3_witness :
    postFiles fd3 ≠ [] ∧
    (processFiles envMix (sharedOf jp0 fd3) 0 (postFiles fd3)).length =
      (postFiles fd3).length ∧
    (processFiles envMix (sharedOf jp0 fd3) 0 (postFiles fd3))[1]? =
      ((postFiles fd3)[1]?).map (fun f =>
        runGeneration (envMix 1)
          { file := f, location := postLocation fd3, mode := postMode fd3
          , lens := postLens fd3, mood := postMood fd3
          , emphasis := parseJsonArray jp0 fd3.emphasis
          , aspect := postAspect fd3 }) :=
  ⟨by decide,
   (claim_C3 jp0 envMix fd3 (by decide)).2.1,
   (claim_C3 jp0 envMix fd3 (by decide)).2.2 1⟩

/-- Claim C6 is refuted by the code: the mode form field is only cast,
never checked, so the client string warp reaches the metadata of the
result even though it is outside the documented enumeration. -/
theorem claim_C6_counterexample :
    POST jp0 envC fd6 =
      PostResponse.success "Miami" "warp" "wide" "sunrise"
        [ { id := "id-0", originalName := "boat.jpg", stage := Stage.completed
          , imageUrl := some "https://poll.example/img.png"
          , validation := some
              { status := VStatus.approved, issues := [], reasoning := "ok" }
          , metadata := some
              { mode := "warp", lens := "wide", mood := "sunrise"
              , engine := "pollinations", location := "Miami"
              , aspect := "3:2" }
          , error := none } ] ∧
    ¬("warp" = "running" ∨ "warp" = "anchored" ∨ "warp" = "showcase") :=
  ⟨rfl, by decide⟩

/-- Claim C6 (amended): the mode, lens and mood used for generation and
echoed in the metadata are the stringified client supplied field values
whenever those fields are present, and the defaults running, wide,
sunrise when absent; membership in the fixed enumerations is not
enforced. -/
theorem claim_C6 (fd : FormDataModel) :
    ((fd.mode = none → postMode fd = "running") ∧
      ∀ e, fd.mode = some e → postMode fd = entryToString e) ∧
    ((fd.lens = none → postLens fd = "wide") ∧
      ∀ e, fd.lens = some e → postLens fd = entryToString e) ∧
    ((fd.mood = none → postMood fd = "sunrise") ∧
      ∀ e, fd.mood = some e → postMood fd = entryToString e) := by
  refine ⟨⟨?_, ?_⟩, ⟨?_, ?_⟩, ⟨?_, ?_⟩⟩
  · intro h; simp [postMode, h]
  · intro e h; simp [postMode, h]
  · intro h; simp [postLens, h]
  · intro e h; simp [postLens, h]
  · intro h; simp [postMood, h]
  · intro e h; simp [postMood, h]

/-- Witness for the amended claim C6: a present mode passes through
unchanged, an absent one defaults. -/
theorem claim_C6_witness :
    postMode fd6 = "warp" ∧ postMode fdEmpty = "running" :=
  ⟨(claim_C6 fd6).1.2 (FormEntry.str "warp") rfl,
   (claim_C6 fdEmpty).1.1 rfl⟩

end MarinaVision
